import Mathlib

set_option maxHeartbeats 1000000

/-!
Shallow embedding of the mcp_smoke_test safety-and-comparison pipeline:
`server/services/query_validator.py`, `server/services/execution_plan_analyzer.py`
and `server/services/database_comparer.py`.

Strings are modelled as `List Char` (ASCII); Python floats are modelled as
exact rationals; Python exceptions are modelled with `Except String`;
the async `execute_query_func` / `execute_explain_func` callables are modelled
as pure functions from the SQL text to an `Except`-wrapped result.
-/

/-- Python `str.strip` whitespace characters (ASCII fragment, as used by `\s`). -/
def pyIsSpace (c : Char) : Bool :=
  c == ' ' || c == '\t' || c == '\n' || c == '\r' || c == '\x0b' || c == '\x0c'

/-- Python `str.upper` on ASCII text. -/
def upperL (l : List Char) : List Char := l.map Char.toUpper

/-- Python `str.strip()`: drop leading and trailing whitespace. -/
def pyStrip (l : List Char) : List Char :=
  ((l.dropWhile pyIsSpace).reverse.dropWhile pyIsSpace).reverse

/-- Python regex word character `\w` (ASCII fragment). -/
def isWordChar (c : Char) : Bool := c.isAlphanum || c == '_'

/-- Numeric value of a digit run. -/
def natOfDigits (ds : List Char) : Nat :=
  ds.foldl (fun a c => a * 10 + (c.toNat - 48)) 0

/-- The regex `\bKW\b` matches `text` at position `i`: `kw` occurs there and
both neighbours (when present) are non-word characters. -/
def wbAt (kw text : List Char) (i : Nat) : Bool :=
  kw.isPrefixOf (text.drop i) &&
  (i == 0 || !isWordChar (text.getD (i - 1) ' ')) &&
  !isWordChar (text.getD (i + kw.length) ' ')

/-- Boolean result of the word-bounded keyword search over the text. -/
def hasWB (kw text : List Char) : Bool :=
  (List.range (text.length + 1)).any (wbAt kw text)

/-- Python `pat in text` (substring containment). -/
def containsSub (pat text : List Char) : Bool :=
  (List.range (text.length + 1)).any (fun i => pat.isPrefixOf (text.drop i))

/-- The SELECT-INTO search of the validator, as a boolean:
a word-bounded SELECT followed (at distance ≥ 6) by a word-bounded INTO. -/
def hasSelectInto (text : List Char) : Bool :=
  (List.range (text.length + 1)).any (fun i =>
    wbAt "SELECT".data text i &&
    (List.range (text.length + 1)).any (fun j =>
      decide (i + 6 ≤ j) && wbAt "INTO".data text j))

/-- Index of the first occurrence of `pat` in the list, if any. -/
def findSubIdx (pat : List Char) : List Char → Option Nat
  | [] => if pat.isEmpty then some 0 else none
  | c :: rest =>
    if pat.isPrefixOf (c :: rest) then some 0
    else (findSubIdx pat rest).map (· + 1)

/-- Suffix strictly after the first occurrence of character `q`, if present. -/
def dropThrough (q : Char) : List Char → Option (List Char)
  | [] => none
  | c :: rest => if c == q then some rest else dropThrough q rest

/-- Removal of complete quoted literals, as `re.sub(r"q[^q]*q", "", s)` does:
leftmost-shortest complete pairs are removed, an unterminated quote is kept.
The fuel argument (initially the list length, which suffices since every step
consumes at least one character) makes the recursion structural. -/
def removeQuotedFuel (q : Char) : Nat → List Char → List Char
  | 0, l => l
  | _ + 1, [] => []
  | fuel + 1, c :: rest =>
    if c == q then
      match dropThrough q rest with
      | some after => removeQuotedFuel q fuel after
      | none => c :: rest
    else c :: removeQuotedFuel q fuel rest

def removeQuoted (q : Char) (l : List Char) : List Char :=
  removeQuotedFuel q l.length l

/-- A single-quote character, and a double-quote character. -/
def singleQuoteChar : Char := Char.ofNat 39
def doubleQuoteChar : Char := Char.ofNat 34

/-- Helper of the multi-statement check: count semicolons after stripping
single- and double-quoted string literals. -/
def semicolon_count (l : List Char) : Nat :=
  (removeQuoted doubleQuoteChar (removeQuoted singleQuoteChar l)).count ';'

/-- Block-comment extraction of the validator: every non-overlapping complete
block comment, delimiters included, leftmost-shortest first. -/
def blockCommentsFuel : Nat → List Char → List (List Char)
  | 0, _ => []
  | fuel + 1, l =>
    match findSubIdx ['/', '*'] l with
    | none => []
    | some i =>
      match findSubIdx ['*', '/'] (l.drop (i + 2)) with
      | none => []
      | some j =>
        ((l.drop i).take (j + 4)) :: blockCommentsFuel fuel (l.drop (i + 2 + j + 2))

def block_comments (l : List Char) : List (List Char) := blockCommentsFuel l.length l

/-- Line-comment extraction of the validator: on each line containing `--`,
the text from the first `--` to the end of the line. -/
def line_comments (l : List Char) : List (List Char) :=
  (l.splitOn '\n').filterMap
    (fun line => (findSubIdx ['-', '-'] line).map (fun i => line.drop i))

/-- Python `str.split(sep)` for a non-empty separator (fuelled recursion). -/
def splitOnSubFuel (sep : List Char) : Nat → List Char → List (List Char)
  | 0, l => [l]
  | fuel + 1, l =>
    match findSubIdx sep l with
    | none => [l]
    | some i => (l.take i) :: splitOnSubFuel sep fuel (l.drop (i + sep.length))

def split_on_sub (sep l : List Char) : List (List Char) := splitOnSubFuel sep l.length l

/-- Result of query validation (`ValidationResult` dataclass). -/
structure ValidationResult where
  is_safe : Bool
  violations : List String
  sanitized_query : Option (List Char)
  query_type : String
deriving DecidableEq

/-- The deny-list of `QueryValidator.DANGEROUS_KEYWORDS`. -/
def DANGEROUS_KEYWORDS : List String :=
  ["INSERT", "UPDATE", "DELETE", "DROP", "TRUNCATE", "ALTER",
   "CREATE", "GRANT", "REVOKE", "EXECUTE", "CALL", "EXEC",
   "MERGE", "REPLACE", "RENAME", "LOCK", "UNLOCK"]

def ALLOWED_STARTS : List String := ["SELECT", "WITH"]

/-- The cleaning done by `_detect_query_type`: strip leading whitespace, then
one leading block comment (only when complete), then one leading line comment
(only when a newline terminates it) — in this order, with no re-stripping of
whitespace in between. -/
def detect_clean (qU : List Char) : List Char :=
  let s1 := qU.dropWhile pyIsSpace
  let s2 :=
    if ['/', '*'].isPrefixOf s1 then
      match findSubIdx ['*', '/'] (s1.drop 2) with
      | some j => s1.drop (2 + j + 2)
      | none => s1
    else s1
  if ['-', '-'].isPrefixOf s2 then
    match dropThrough '\n' (s2.drop 2) with
    | some after => after
    | none => s2
  else s2

/-- Embedding of `QueryValidator._detect_query_type` (applied to the uppercased query). -/
def detect_query_type (qU : List Char) : String :=
  let qc := detect_clean qU
  if "SELECT".data.isPrefixOf qc then "SELECT"
  else if "WITH".data.isPrefixOf qc then "WITH"
  else
    let w := qc.takeWhile isWordChar
    if w.isEmpty then "INVALID" else String.mk w

/-- Embedding of `QueryValidator._check_dangerous_keywords`. -/
def check_dangerous_keywords (qU : List Char) : List String :=
  DANGEROUS_KEYWORDS.filter (fun kw => hasWB kw.data qU)

/-- Embedding of `QueryValidator._has_multiple_statements`. -/
def has_multiple_statements (q : List Char) : Bool := decide (semicolon_count q > 1)

/-- One comment is suspicious when its uppercased text contains a deny-listed
keyword as a substring. -/
def suspicious_comment (c : List Char) : Bool :=
  DANGEROUS_KEYWORDS.any (fun kw => containsSub kw.data (upperL c))

/-- Embedding of `QueryValidator._has_suspicious_comments`. -/
def has_suspicious_comments (q : List Char) : Bool :=
  (block_comments q).any suspicious_comment || (line_comments q).any suspicious_comment

/-- Embedding of `QueryValidator._has_union_injection`. -/
def has_union_injection (qU : List Char) : Bool :=
  if containsSub "UNION".data qU then
    ((split_on_sub "UNION".data qU).drop 1).any (fun part =>
      DANGEROUS_KEYWORDS.any (fun kw => hasWB kw.data part))
  else false

/-- Python `str.rstrip(";")`: drop every trailing semicolon. -/
def pyRstripSemis (l : List Char) : List Char :=
  (l.reverse.dropWhile (fun c => c == ';')).reverse

/-- The violation accumulation of `QueryValidator.validate` (checks 1-6, in
source order), over the stripped query, its uppercase form, and the detected
query type. -/
def validate_violations (query query_upper : List Char) (query_type : String) : List String :=
  (if query_type ∈ ALLOWED_STARTS then []
   else ["Query must start with SELECT or WITH (for CTEs). Found: " ++ query_type]) ++
  (check_dangerous_keywords query_upper).map
    (fun kw => "Dangerous keyword " ++ kw ++ " detected") ++
  (if hasSelectInto query_upper then
    ["SELECT INTO is not allowed (creates new tables)"] else []) ++
  (if has_multiple_statements query then
    ["Multi-statement queries not allowed (security risk). Found multiple semicolons."]
   else []) ++
  (if has_suspicious_comments query then
    ["Suspicious comments detected that might hide dangerous code"] else []) ++
  (if has_union_injection query_upper then
    ["UNION with dangerous keywords detected (possible injection)"] else [])

/-- Embedding of `QueryValidator.validate`. -/
def validate (q : List Char) : ValidationResult :=
  if (pyStrip q).isEmpty then
    ⟨false, ["Query is empty"], none, "INVALID"⟩
  else
    let query := pyStrip q
    let query_upper := upperL query
    let query_type := detect_query_type query_upper
    let violations := validate_violations query query_upper query_type
    let is_safe := violations.isEmpty
    let sanitized := if is_safe then some (pyRstripSemis (pyStrip query)) else none
    ⟨is_safe, violations, sanitized, query_type⟩

/-- Number of trailing semicolons of a string. -/
def trailing_semis (l : List Char) : Nat :=
  (l.reverse.takeWhile (fun c => c == ';')).length

/-- The claim-side sanitization: remove at most one trailing semicolon. -/
def drop_one_trailing_semi (l : List Char) : List Char :=
  if l.getLast? = some ';' then l.dropLast else l

/-- Whether an optional sanitized query ends with a semicolon. -/
def ends_with_semi : Option (List Char) → Bool
  | some s => decide (s.getLast? = some ';')
  | none => false

/-! ## Execution plan analyzer (`execution_plan_analyzer.py`) -/

/-- Query execution cost levels (`ExecutionCost` enum). -/
inductive ExecutionCost where
  | low
  | medium
  | high
  | excessive
deriving DecidableEq

/-- Result of execution plan analysis (`PlanAnalysis` dataclass).
Row counts parsed from plans are natural numbers; times and costs are exact
rationals standing for the Python floats. -/
structure PlanAnalysis where
  is_acceptable : Bool
  estimated_time_sec : Rat
  estimated_rows : Nat
  estimated_cost : Rat
  cost_level : ExecutionCost
  has_full_table_scan : Bool
  recommendations : List String
  raw_plan : List Char
  error_message : Option String := none
deriving DecidableEq

def MAX_EXECUTION_TIME_SEC : Rat := 300
def WARN_ROWS : Nat := 1000000

/-- Embedding of `ExecutionPlanAnalyzer._determine_cost_level`. -/
def determine_cost_level (estimated_time_sec : Rat) : ExecutionCost :=
  if estimated_time_sec > MAX_EXECUTION_TIME_SEC then .excessive
  else if estimated_time_sec > 180 then .high
  else if estimated_time_sec > 60 then .medium
  else .low

/-- Embedding of `ExecutionPlanAnalyzer._build_explain_query`; raises on unsupported dialects. -/
def build_explain_query (query : String) (db_type : String) : Except String String :=
  if db_type = "oracle" then .ok ("EXPLAIN PLAN FOR " ++ query)
  else if db_type = "mysql" then .ok ("EXPLAIN " ++ query)
  else if db_type = "postgresql" then .ok ("EXPLAIN (FORMAT JSON, ANALYZE FALSE) " ++ query)
  else .error ("Unsupported database type: " ++ db_type)

/-- Scan the text left to right and return the first position where the
matcher succeeds (regex `re.search` over simple deterministic patterns). -/
def scan_first {α : Type} (f : List Char → Option α) : List Char → Option α
  | [] => f []
  | c :: rest =>
    match f (c :: rest) with
    | some a => some a
    | none => scan_first f rest

/-- Match `\|\s*(\d+)\s*\(\d+\%?\)` at the head of the text (Oracle cost row). -/
def oracle_cost_at (l : List Char) : Option Nat :=
  match l with
  | '|' :: rest =>
    let r1 := rest.dropWhile pyIsSpace
    let digs := r1.takeWhile Char.isDigit
    if digs.isEmpty then none else
    match (r1.drop digs.length).dropWhile pyIsSpace with
    | '(' :: r3 =>
      let d2 := r3.takeWhile Char.isDigit
      if d2.isEmpty then none else
      match r3.drop d2.length with
      | '%' :: ')' :: _ => some (natOfDigits digs)
      | ')' :: _ => some (natOfDigits digs)
      | _ => none
    | _ => none
  | _ => none

/-- Match `KW\s*[:=]\s*(\d+)` (case-insensitively) at the head of the text. -/
def kw_num_at (kw : List Char) (l : List Char) : Option Nat :=
  if upperL (l.take kw.length) = kw then
    match (l.drop kw.length).dropWhile pyIsSpace with
    | c :: r2 =>
      if c == ':' || c == '=' then
        let d := (r2.dropWhile pyIsSpace).takeWhile Char.isDigit
        if d.isEmpty then none else some (natOfDigits d)
      else none
    | [] => none
  else none

/-- Match `\|\s*(\d+)\s*\|\s*\d+\s*\(` at the head of the text (Oracle rows cell). -/
def oracle_rows_at (l : List Char) : Option Nat :=
  match l with
  | '|' :: rest =>
    let r1 := rest.dropWhile pyIsSpace
    let d1 := r1.takeWhile Char.isDigit
    if d1.isEmpty then none else
    match (r1.drop d1.length).dropWhile pyIsSpace with
    | '|' :: r3 =>
      let r4 := r3.dropWhile pyIsSpace
      let d2 := r4.takeWhile Char.isDigit
      if d2.isEmpty then none else
      match (r4.drop d2.length).dropWhile pyIsSpace with
      | '(' :: _ => some (natOfDigits d1)
      | _ => none
    | _ => none
  | _ => none

/-- Embedding of `ExecutionPlanAnalyzer._parse_oracle_plan`. -/
def parse_oracle_plan (plan : List Char) : PlanAnalysis :=
  let cost0 : Rat :=
    match scan_first oracle_cost_at plan with
    | some n => (n : Rat)
    | none =>
      match scan_first (kw_num_at "COST".data) plan with
      | some n => (n : Rat)
      | none => 0
  let rows : Nat :=
    match scan_first oracle_rows_at plan with
    | some n => n
    | none =>
      match scan_first (kw_num_at "CARDINALITY".data) plan with
      | some n => n
      | none =>
        match scan_first (kw_num_at "ROWS".data) plan with
        | some n => n
        | none => 0
  let has_full_table_scan := containsSub "TABLE ACCESS FULL".data plan
  let recs1 := if has_full_table_scan then
    ["Full table scan detected. Consider adding indexes."] else []
  let cartesian := containsSub "CARTESIAN".data plan
    || containsSub "MERGE JOIN CARTESIAN".data plan
  let recs2 := recs1 ++ (if cartesian then
    ["Cartesian product detected! Missing JOIN condition?"] else [])
  let cost := if cartesian then cost0 * 10 else cost0
  let t0 := cost / 1000
  let big_rows := decide (rows > WARN_ROWS)
  let estimated_time_sec := if big_rows then t0 * ((rows : Rat) / (WARN_ROWS : Rat)) else t0
  let recs3 := recs2 ++ (if big_rows then
    ["High row count. Consider adding WHERE filters."] else [])
  ⟨true, estimated_time_sec, rows, cost, determine_cost_level estimated_time_sec,
   has_full_table_scan, recs3, plan, none⟩

/-- One step of `re.findall(r"rows[:\s]+(\d+)", plan, re.IGNORECASE)`:
match at the head of the text and return the captured number and the suffix
after the match. -/
def mysql_rows_at (l : List Char) : Option (Nat × List Char) :=
  if upperL (l.take 4) = "ROWS".data then
    let rest := l.drop 4
    let seps := rest.takeWhile (fun c => c == ':' || pyIsSpace c)
    if seps.isEmpty then none else
    let rest2 := rest.drop seps.length
    let digs := rest2.takeWhile Char.isDigit
    if digs.isEmpty then none else some (natOfDigits digs, rest2.drop digs.length)
  else none

/-- All (non-overlapping, left-to-right) captures of `rows[:\s]+(\d+)`. -/
def mysqlRowsScan : Nat → List Char → List Nat
  | 0, _ => []
  | fuel + 1, l =>
    match mysql_rows_at l with
    | some (n, rest) => n :: mysqlRowsScan fuel rest
    | none =>
      match l with
      | [] => []
      | _ :: t => mysqlRowsScan fuel t

def mysql_rows_matches (plan : List Char) : List Nat := mysqlRowsScan plan.length plan

/-- Embedding of `ExecutionPlanAnalyzer._parse_mysql_plan`. -/
def parse_mysql_plan (plan : List Char) : PlanAnalysis :=
  let rows_matches := mysql_rows_matches plan
  let total_rows : Nat :=
    if rows_matches.isEmpty then 0
    else if rows_matches.length > 1 then rows_matches.foldl (fun a b => a * b) 1
    else rows_matches.headD 0
  let has_full_table_scan := containsSub "ALL".data plan || containsSub "type: ALL".data plan
  let recs1 := if has_full_table_scan then
    ["Full table scan detected. Consider adding indexes."] else []
  let filesort := containsSub "Using filesort".data plan
  let recs2 := recs1 ++ (if filesort then
    ["Filesort detected. Consider adding index on ORDER BY columns."] else [])
  let cost1 : Rat := if filesort then 1000 else 0
  let temporary := containsSub "Using temporary".data plan
  let recs3 := recs2 ++ (if temporary then
    ["Temporary table used. Consider query optimization."] else [])
  let cost := cost1 + (if temporary then 500 else 0)
  let estimated_time_sec := (total_rows : Rat) / 1000000 + cost / 1000
  let recs4 := recs3 ++ (if containsSub "NULL".data plan && has_full_table_scan then
    ["No index used. Query may be very slow!"] else [])
  ⟨true, estimated_time_sec, total_rows, cost, determine_cost_level estimated_time_sec,
   has_full_table_scan, recs4, plan, none⟩

/-- A Python float literal as captured by `[0-9.]+`: valid when it has at most
one dot and at least one digit; its exact rational value. -/
def pyFloat (run : List Char) : Except String Rat :=
  if run.count '.' > 1 then .error "could not convert string to float"
  else if (run.filter Char.isDigit).isEmpty then .error "could not convert string to float"
  else
    let ip := run.takeWhile (fun c => !(c == '.'))
    let fp := run.drop (ip.length + 1)
    .ok ((natOfDigits ip : Rat) + (natOfDigits fp : Rat) / ((10 : Rat) ^ fp.length))

def isFloatChar (c : Char) : Bool := c.isDigit || c == '.'

/-- Match `Total Cost["\s:]+([0-9.]+)` (case-insensitively) at the head. -/
def total_cost_at (l : List Char) : Option (List Char) :=
  if upperL (l.take 10) = "TOTAL COST".data then
    let seps := (l.drop 10).takeWhile (fun c => c == doubleQuoteChar || c == ':' || pyIsSpace c)
    if seps.isEmpty then none else
    let run := ((l.drop 10).drop seps.length).takeWhile isFloatChar
    if run.isEmpty then none else some run
  else none

/-- Greedy-backtracking split of a `[0-9.]` run at its last internal `..`
followed by at least one more character, as `[0-9.]+\.\.([0-9.]+)` captures. -/
def last_dotdot_split (run : List Char) : Option (List Char) :=
  let idxs := (List.range run.length).filter (fun i =>
    decide (0 < i) && ['.', '.'].isPrefixOf (run.drop i) && decide (i + 2 < run.length))
  match idxs.getLast? with
  | some i => some (run.drop (i + 2))
  | none => none

/-- Match `cost["\s:=]+[0-9.]+\.\.([0-9.]+)` (case-insensitively) at the head. -/
def cost_range_at (l : List Char) : Option (List Char) :=
  if upperL (l.take 4) = "COST".data then
    let seps := (l.drop 4).takeWhile
      (fun c => c == doubleQuoteChar || c == ':' || c == '=' || pyIsSpace c)
    if seps.isEmpty then none else
    let run := ((l.drop 4).drop seps.length).takeWhile isFloatChar
    if run.isEmpty then none else last_dotdot_split run
  else none

/-- Match `KW["\s:]+(\d+)` or `KW["\s:=]+(\d+)` (case-insensitively) at the
head, with the separator class supplied by the caller. -/
def kw_sep_num_at (kw : List Char) (sepP : Char → Bool) (l : List Char) : Option Nat :=
  if upperL (l.take kw.length) = kw then
    let seps := (l.drop kw.length).takeWhile sepP
    if seps.isEmpty then none else
    let d := ((l.drop kw.length).drop seps.length).takeWhile Char.isDigit
    if d.isEmpty then none else some (natOfDigits d)
  else none

/-- Embedding of `ExecutionPlanAnalyzer._parse_postgresql_plan`; `float()` on a malformed
capture raises, hence the `Except`. -/
def parse_postgresql_plan (plan : List Char) : Except String PlanAnalysis :=
  match (match scan_first total_cost_at plan with
         | some run => pyFloat run
         | none =>
           match scan_first cost_range_at plan with
           | some run => pyFloat run
           | none => .ok 0 : Except String Rat) with
  | .error e => .error e
  | .ok cost =>
    let rows : Nat :=
      match scan_first
        (kw_sep_num_at "PLAN ROWS".data
          (fun c => c == doubleQuoteChar || c == ':' || pyIsSpace c)) plan with
      | some n => n
      | none =>
        match scan_first
          (kw_sep_num_at "ROWS".data
            (fun c => c == doubleQuoteChar || c == ':' || c == '=' || pyIsSpace c)) plan with
        | some n => n
        | none => 0
    let has_full_table_scan := containsSub "Seq Scan".data plan
    let recs1 := if has_full_table_scan then
      ["Sequential scan detected. Consider adding indexes."] else []
    let recs2 := recs1 ++ (if containsSub "Nested Loop".data plan && decide (rows > 10000) then
      ["Nested loop with large dataset. Consider hash join."] else [])
    let recs3 := recs2 ++ (if containsSub "Sort".data plan then
      ["Sort operation detected. Ensure indexed ORDER BY if possible."] else [])
    let t0 := cost / 10000
    let big_rows := decide (rows > WARN_ROWS)
    let estimated_time_sec :=
      if big_rows then t0 * ((rows : Rat) / (WARN_ROWS : Rat)) * (1 / 2) else t0
    let recs4 := recs3 ++ (if big_rows then
      ["High row count. Consider limiting results."] else [])
    .ok ⟨true, estimated_time_sec, rows, cost, determine_cost_level estimated_time_sec,
      has_full_table_scan, recs4, plan, none⟩

/-- The dialect dispatch inside `analyze_query_cost`; its `else` branch raises. -/
def dispatch_parse (db_type : String) (plan : List Char) : Except String PlanAnalysis :=
  if db_type = "oracle" then .ok (parse_oracle_plan plan)
  else if db_type = "mysql" then .ok (parse_mysql_plan plan)
  else if db_type = "postgresql" then parse_postgresql_plan plan
  else .error ("Unsupported database type: " ++ db_type)

/-- The `try` body of `ExecutionPlanAnalyzer.analyze_query_cost`: build the
EXPLAIN statement, run it through the supplied explain function, parse the
plan, then overwrite `is_acceptable` from the 300s threshold. -/
def analyze_query_cost_E (query : String) (db_type : String)
    (explainFn : String → Except String (List Char)) : Except String PlanAnalysis :=
  match build_explain_query query db_type with
  | .error e => .error e
  | .ok eq =>
    match explainFn eq with
    | .error e => .error e
    | .ok plan =>
      match dispatch_parse db_type plan with
      | .error e => .error e
      | .ok a => .ok { a with is_acceptable := decide (a.estimated_time_sec ≤ MAX_EXECUTION_TIME_SEC) }

/-- Embedding of `ExecutionPlanAnalyzer.analyze_query_cost`: any exception in the body is
caught and turned into the blocked/error analysis. -/
def analyze_query_cost (query : String) (db_type : String)
    (explainFn : String → Except String (List Char)) : PlanAnalysis :=
  match analyze_query_cost_E query db_type explainFn with
  | .ok a => a
  | .error e =>
    ⟨false, 0, 0, 0, .excessive, false, [], [], some ("Plan analysis failed: " ++ e)⟩

/-! ## Database comparer (`database_comparer.py`) -/

/-- The `DatabaseType` literal of the comparer. -/
inductive DbType where
  | oracle
  | mysql
  | postgresql
deriving DecidableEq

/-- The `match_status` values of a `ComparisonResult`. -/
inductive MatchStatus where
  | identical
  | mismatch
  | error
deriving DecidableEq

/-- Result of database comparison (`ComparisonResult` dataclass). Row
counters are integers (Python ints); the measured wall-clock duration is an
exact rational. -/
structure ComparisonResult where
  match_status : MatchStatus
  total_rows_source : Int
  total_rows_target : Int
  matching_rows : Int
  missing_in_target : Int
  missing_in_source : Int
  mismatched_rows : Int
  comparison_time_sec : Rat
  temp_table_name : Option String
  error_message : Option String := none
deriving DecidableEq

/-- Configuration for comparison (`ComparisonConfig` dataclass). -/
structure ComparisonConfig where
  source_query : String
  target_query : String
  key_columns : List String
  compare_columns : Option (List String) := none
  case_sensitive : Bool := true
  trim_strings : Bool := false
  ignore_null_differences : Bool := false

/-- A database cell value, as far as the comparer inspects results:
integers, strings, and Python `None` (what `dict.get` yields for a missing
key). -/
inductive PyVal where
  | int (n : Int)
  | str (s : String)
  | none
deriving DecidableEq

/-- One result row: a tuple/list row, a dict row, or some other object the
comparer skips over. -/
inductive PyRow where
  | tup (cells : List PyVal)
  | dict (entries : List (String × PyVal))
  | other
deriving DecidableEq

/-- The query executor boundary: a SQL string to either rows or a raised
exception (its `str(e)` text). -/
def ExecFn : Type := String → Except String (List PyRow)

/-- Python `int(v)`: identity on ints, digit parsing (with optional sign) on
strings, and a raised error otherwise. -/
def int_of_chars (cs : List Char) : Option Int :=
  match cs with
  | '-' :: ds =>
    if ds.isEmpty then Option.none
    else if ds.all Char.isDigit then some (-(natOfDigits ds : Int)) else Option.none
  | '+' :: ds =>
    if ds.isEmpty then Option.none
    else if ds.all Char.isDigit then some (natOfDigits ds : Int) else Option.none
  | ds =>
    if ds.isEmpty then Option.none
    else if ds.all Char.isDigit then some (natOfDigits ds : Int) else Option.none

def pyToInt : PyVal → Except String Int
  | .int n => .ok n
  | .str s =>
    match int_of_chars s.data with
    | some n => .ok n
    | Option.none => .error ("invalid literal for int() with base 10: " ++ s)
  | .none => .error "int() argument cannot be NoneType"

/-- Python `dict.get(key)` over the modelled dict rows: `None` when absent. -/
def dict_get (entries : List (String × PyVal)) (key : String) : PyVal :=
  match entries.find? (fun e => e.fst = key) with
  | some e => e.snd
  | Option.none => PyVal.none

/-- Python `dict.get(key, default)`. -/
def dict_getD (entries : List (String × PyVal)) (key : String) (d : PyVal) : PyVal :=
  match entries.find? (fun e => e.fst = key) with
  | some e => e.snd
  | Option.none => d

/-- Embedding of `_create_temp_table`: the per-dialect DDL text (the dialect argument is
the three-valued `DatabaseType` literal, so the unsupported-type branch is
unreachable). -/
def create_temp_table_sql (table_name query : String) (db : DbType) : String :=
  match db with
  | .oracle =>
    "CREATE GLOBAL TEMPORARY TABLE " ++ table_name ++ "\nON COMMIT PRESERVE ROWS\nAS " ++ query
  | .mysql => "CREATE TEMPORARY TABLE " ++ table_name ++ "\nAS " ++ query
  | .postgresql => "CREATE TEMP TABLE " ++ table_name ++ "\nAS " ++ query

def count_sql (table_name : String) : String := "SELECT COUNT(*) FROM " ++ table_name

/-- The result-shape handling of `_get_row_count`: the first cell of the
first row when the first row is a non-empty tuple/list or dict (indexing an
empty one raises), `0` otherwise. -/
def parse_row_count : List PyRow → Except String Int
  | [] => .ok 0
  | PyRow.tup [] :: _ => .error "tuple index out of range"
  | PyRow.tup (v :: _) :: _ => pyToInt v
  | PyRow.dict [] :: _ => .error "list index out of range"
  | PyRow.dict ((_, v) :: _) :: _ => pyToInt v
  | PyRow.other :: _ => .ok 0

/-- Embedding of `_get_row_count`. -/
def get_row_count (table_name : String) (ex : ExecFn) : Except String Int :=
  match ex (count_sql table_name) with
  | .error e => .error e
  | .ok rows => parse_row_count rows

/-- A single-quote character as SQL text. -/
def sqlQ : String := String.mk [singleQuoteChar]

/-- Join-condition text `s.c = t.c AND ...` over the key columns. -/
def join_cond (a b : String) (cols : List String) : String :=
  String.intercalate " AND " (cols.map (fun c => a ++ "." ++ c ++ " = " ++ b ++ "." ++ c))

/-- Embedding of `_build_comparison_query`: the diff query text. The PostgreSQL and MySQL
templates index `key_columns[0]`, so they raise on an empty key list; the
Oracle template does not. -/
def build_comparison_query (temp_source temp_target temp_mismatch : String)
    (cfg : ComparisonConfig) (db : DbType) : Except String String :=
  match db with
  | .postgresql =>
    match cfg.key_columns with
    | [] => .error "list index out of range"
    | k0 :: _ =>
      .ok ("CREATE TEMP TABLE " ++ temp_mismatch ++ " AS\nSELECT CASE WHEN s." ++ k0
        ++ " IS NULL THEN " ++ sqlQ ++ "missing_in_source" ++ sqlQ
        ++ " WHEN t." ++ k0 ++ " IS NULL THEN " ++ sqlQ ++ "missing_in_target" ++ sqlQ
        ++ " ELSE " ++ sqlQ ++ "value_mismatch" ++ sqlQ ++ " END as mismatch_type, "
        ++ String.intercalate ", "
            (cfg.key_columns.map (fun c => "COALESCE(s." ++ c ++ ", t." ++ c ++ ") as " ++ c))
        ++ "\nFROM " ++ temp_source ++ " s\nFULL OUTER JOIN " ++ temp_target ++ " t\nON "
        ++ join_cond "s" "t" cfg.key_columns
        ++ "\nWHERE s." ++ k0 ++ " IS NULL OR t." ++ k0 ++ " IS NULL")
  | .mysql =>
    match cfg.key_columns with
    | [] => .error "list index out of range"
    | k0 :: _ =>
      .ok ("CREATE TEMPORARY TABLE " ++ temp_mismatch ++ " AS\nSELECT " ++ sqlQ
        ++ "missing_in_target" ++ sqlQ ++ " as mismatch_type, "
        ++ String.intercalate ", " cfg.key_columns
        ++ "\nFROM " ++ temp_source ++ " s\nLEFT JOIN " ++ temp_target ++ " t ON "
        ++ join_cond "s" "t" cfg.key_columns
        ++ "\nWHERE t." ++ k0 ++ " IS NULL\nUNION ALL\nSELECT " ++ sqlQ
        ++ "missing_in_source" ++ sqlQ ++ " as mismatch_type, "
        ++ String.intercalate ", " cfg.key_columns
        ++ "\nFROM " ++ temp_target ++ " t\nLEFT JOIN " ++ temp_source ++ " s ON "
        ++ join_cond "t" "s" cfg.key_columns
        ++ "\nWHERE s." ++ k0 ++ " IS NULL")
  | .oracle =>
    .ok ("CREATE GLOBAL TEMPORARY TABLE " ++ temp_mismatch
      ++ " ON COMMIT PRESERVE ROWS AS\nSELECT " ++ sqlQ
      ++ "missing_in_target" ++ sqlQ ++ " as mismatch_type, "
      ++ String.intercalate ", " cfg.key_columns
      ++ "\nFROM " ++ temp_source ++ " s\nWHERE NOT EXISTS (SELECT 1 FROM " ++ temp_target
      ++ " t WHERE " ++ join_cond "s" "t" cfg.key_columns
      ++ ")\nUNION ALL\nSELECT " ++ sqlQ
      ++ "missing_in_source" ++ sqlQ ++ " as mismatch_type, "
      ++ String.intercalate ", " cfg.key_columns
      ++ "\nFROM " ++ temp_target ++ " t\nWHERE NOT EXISTS (SELECT 1 FROM " ++ temp_source
      ++ " s WHERE " ++ join_cond "t" "s" cfg.key_columns ++ "))")

/-- The GROUP BY statistics query of `_get_mismatch_stats`. -/
def stats_sql (temp_mismatch : String) : String :=
  "SELECT mismatch_type, COUNT(*) as count FROM " ++ temp_mismatch ++ " GROUP BY mismatch_type"

/-- The stats accumulator dict of `_get_mismatch_stats`. -/
structure MismatchStats where
  missing_in_target : Int := 0
  missing_in_source : Int := 0
  mismatched_values : Int := 0
  matching_rows : Int := 0
  total_mismatches : Int := 0
deriving DecidableEq

/-- The `(mismatch_type, count)` extraction from one stats row: dict rows use
`row.get("mismatch_type")` and `row.get("count", 0)`; tuple/list rows of
length at least two use the first two cells; every other row is skipped. -/
def rowKV : PyRow → Option (PyVal × PyVal)
  | .dict entries => some (dict_get entries "mismatch_type", dict_getD entries "count" (.int 0))
  | .tup (a :: b :: _) => some (a, b)
  | _ => Option.none

/-- The per-row update of the stats dict: each recognised mismatch type field
is assigned (not added), and `total_mismatches` accumulates every parsed count. -/
def applyRow (st : MismatchStats) (t : PyVal) (c : Int) : MismatchStats :=
  let st1 :=
    if t = PyVal.str "missing_in_target" then { st with missing_in_target := c }
    else if t = PyVal.str "missing_in_source" then { st with missing_in_source := c }
    else if t = PyVal.str "value_mismatch" then { st with mismatched_values := c }
    else st
  { st1 with total_mismatches := st1.total_mismatches + c }

def statsStep (st : MismatchStats) (row : PyRow) : Except String MismatchStats :=
  match rowKV row with
  | Option.none => .ok st
  | some (t, cv) =>
    match pyToInt cv with
    | .error e => .error e
    | .ok c => .ok (applyRow st t c)

def statsLoop (st : MismatchStats) : List PyRow → Except String MismatchStats
  | [] => .ok st
  | r :: rs =>
    match statsStep st r with
    | .error e => .error e
    | .ok st1 => statsLoop st1 rs

/-- The result-parsing part of `_get_mismatch_stats`. -/
def get_mismatch_stats_rows (rows : List PyRow) : Except String MismatchStats :=
  if rows.isEmpty then .ok {} else statsLoop {} rows

/-- Embedding of `DatabaseComparer._get_mismatch_stats`: run the GROUP BY query and parse
its rows. -/
def get_mismatch_stats (temp_mismatch : String) (ex : ExecFn) : Except String MismatchStats :=
  match ex (stats_sql temp_mismatch) with
  | .error e => .error e
  | .ok rows => get_mismatch_stats_rows rows

/-- The `try` body of `DatabaseComparer.compare_tables`, sequencing the
statements in source order over the supplied executor. The generated temp
table names (timestamp + md5 fragment in the source) are taken as inputs. -/
def compareTablesE (cfg : ComparisonConfig) (db : DbType) (ex : ExecFn)
    (temp_source temp_target temp_mismatch : String) :
    Except String (Int × Int × MismatchStats) :=
  match ex (create_temp_table_sql temp_source cfg.source_query db) with
  | .error e => .error e
  | .ok _ =>
    match ex (create_temp_table_sql temp_target cfg.target_query db) with
    | .error e => .error e
    | .ok _ =>
      match get_row_count temp_source ex with
      | .error e => .error e
      | .ok source_count =>
        match get_row_count temp_target ex with
        | .error e => .error e
        | .ok target_count =>
          match build_comparison_query temp_source temp_target temp_mismatch cfg db with
          | .error e => .error e
          | .ok comparison_query =>
            match ex comparison_query with
            | .error e => .error e
            | .ok _ =>
              match get_mismatch_stats temp_mismatch ex with
              | .error e => .error e
              | .ok stats => .ok (source_count, target_count, stats)

/-- Embedding of `DatabaseComparer.compare_tables`: the body above with its top-level
`except` clause. `elapsed` stands for the measured
`(end_time - start_time).total_seconds()` of the run. -/
def compareTables (cfg : ComparisonConfig) (db : DbType) (ex : ExecFn)
    (temp_source temp_target temp_mismatch : String) (elapsed : Rat) : ComparisonResult :=
  match compareTablesE cfg db ex temp_source temp_target temp_mismatch with
  | .ok (source_count, target_count, stats) =>
    let ms := if stats.total_mismatches > 0 then MatchStatus.mismatch else MatchStatus.identical
    ⟨ms, source_count, target_count, stats.matching_rows, stats.missing_in_target,
     stats.missing_in_source, stats.mismatched_values, elapsed, some temp_mismatch, Option.none⟩
  | .error e =>
    ⟨.error, 0, 0, 0, 0, 0, 0, elapsed, Option.none, some e⟩

/-- The per-dialect DROP statement of `cleanup_temp_tables`. -/
def drop_sql (db : DbType) (table_name : String) : String :=
  match db with
  | .oracle => "DROP TABLE " ++ table_name
  | .mysql => "DROP TEMPORARY TABLE IF EXISTS " ++ table_name
  | .postgresql => "DROP TABLE IF EXISTS " ++ table_name

/-- The drop loop of `cleanup_temp_tables`: every registered name is dropped
in order; a failing drop is logged and the loop continues (both branches of
the `try` proceed identically here). Returns the issued DROP statements. -/
def cleanup_drops (db : DbType) (ex : ExecFn) : List String → List String
  | [] => []
  | n :: rest =>
    let sql := drop_sql db n
    match ex sql with
    | .ok _ => sql :: cleanup_drops db ex rest
    | .error _ => sql :: cleanup_drops db ex rest

/-- Embedding of `DatabaseComparer.cleanup_temp_tables` acting on the
`temp_tables_created` registry: returns the issued DROP statements and the
new registry contents (cleared unconditionally at the end). -/
def cleanup_temp_tables (db : DbType) (ex : ExecFn) (registry : List String) :
    List String × List String :=
  (cleanup_drops db ex registry, [])

/-- The three mismatch-type tags the diff queries can emit. -/
def VALID_TYPES : List PyVal :=
  [.str "missing_in_target", .str "missing_in_source", .str "value_mismatch"]

/-- The mismatch-type of a stats row, when the row is parsed at all. -/
def rowType (r : PyRow) : Option PyVal := (rowKV r).map Prod.fst

/-- A well-formed stats row: its count parses to a nonnegative integer and
its type tag is one of the three emitted tags. -/
def WFRow (r : PyRow) : Prop :=
  ∀ t cv, rowKV r = some (t, cv) →
    (∃ c, pyToInt cv = .ok c ∧ 0 ≤ c) ∧ t ∈ VALID_TYPES

/-- A well-formed GROUP BY result: every row well-formed, and the type tags
pairwise distinct (GROUP BY emits one row per group). -/
def WFRows (rows : List PyRow) : Prop :=
  (∀ r ∈ rows, WFRow r) ∧ (rows.filterMap rowType).Nodup

/-- The stats field a type tag is assigned into (0 for unrecognised tags). -/
def type_field (st : MismatchStats) (t : PyVal) : Int :=
  if t = PyVal.str "missing_in_target" then st.missing_in_target
  else if t = PyVal.str "missing_in_source" then st.missing_in_source
  else if t = PyVal.str "value_mismatch" then st.mismatched_values
  else 0


/-! ## Helper lemmas -/

theorem dropWhile_head_not {α : Type} (p : α → Bool) :
    ∀ (l : List α) (a : α), (l.dropWhile p).head? = some a → p a = false := by
  intro l
  induction l with
  | nil => intro a h; simp [List.dropWhile] at h
  | cons x xs ih =>
    intro a h
    rw [List.dropWhile_cons] at h
    by_cases hx : p x
    · rw [if_pos hx] at h; exact ih a h
    · rw [if_neg hx] at h
      simp only [List.head?_cons, Option.some.injEq] at h
      subst h
      exact Bool.eq_false_iff.mpr hx

theorem pyRstripSemis_no_semi (l : List Char) :
    ¬ (pyRstripSemis l).getLast? = some ';' := by
  unfold pyRstripSemis
  rw [List.getLast?_reverse]
  cases h : (l.reverse.dropWhile (fun c => c == ';')).head? with
  | none => simp
  | some a =>
    have ha : a ≠ ';' := by
      simpa using dropWhile_head_not (fun c => c == ';') l.reverse a h
    simp [ha]

theorem cleanup_drops_eq (db : DbType) (ex : ExecFn) :
    ∀ registry : List String, cleanup_drops db ex registry = registry.map (drop_sql db) := by
  intro registry
  induction registry with
  | nil => rfl
  | cons n rest ih =>
    unfold cleanup_drops
    cases h : ex (drop_sql db n) <;> simp [h, ih]

theorem applyRow_matching (st : MismatchStats) (t : PyVal) (c : Int) :
    (applyRow st t c).matching_rows = st.matching_rows := by
  unfold applyRow
  split
  · rfl
  · split
    · rfl
    · split
      · rfl
      · rfl

theorem applyRow_total (st : MismatchStats) (t : PyVal) (c : Int) :
    (applyRow st t c).total_mismatches = st.total_mismatches + c := by
  unfold applyRow
  split
  · rfl
  · split
    · rfl
    · split
      · rfl
      · rfl

theorem statsLoop_matching :
    ∀ (rows : List PyRow) (st st' : MismatchStats),
      statsLoop st rows = .ok st' → st'.matching_rows = st.matching_rows := by
  intro rows
  induction rows with
  | nil => intro st st' h; cases h; rfl
  | cons r rs ih =>
    intro st st' h
    simp only [statsLoop] at h
    cases hs : statsStep st r with
    | error e => simp only [hs] at h; simp at h
    | ok st1 =>
      simp only [hs] at h
      have h2 := ih st1 st' h
      cases hk : rowKV r with
      | none =>
        simp only [statsStep, hk] at hs
        cases hs
        exact h2
      | some tv =>
        obtain ⟨t, cv⟩ := tv
        simp only [statsStep, hk] at hs
        cases hp : pyToInt cv with
        | error e => simp only [hp] at hs; simp at hs
        | ok c =>
          simp only [hp] at hs
          cases hs
          rw [h2, applyRow_matching]

theorem get_mismatch_stats_rows_matching (rows : List PyRow) (st : MismatchStats)
    (h : get_mismatch_stats_rows rows = .ok st) : st.matching_rows = 0 := by
  unfold get_mismatch_stats_rows at h
  by_cases he : rows.isEmpty
  · rw [if_pos he] at h; cases h; rfl
  · rw [if_neg he] at h
    exact statsLoop_matching rows {} st h

theorem get_mismatch_stats_matching (tM : String) (ex : ExecFn) (st : MismatchStats)
    (h : get_mismatch_stats tM ex = .ok st) : st.matching_rows = 0 := by
  unfold get_mismatch_stats at h
  cases hr : ex (stats_sql tM) with
  | error e => rw [hr] at h; cases h
  | ok rows => rw [hr] at h; exact get_mismatch_stats_rows_matching rows st h

theorem compareTablesE_ok_inv (cfg : ComparisonConfig) (db : DbType) (ex : ExecFn)
    (tS tT tM : String) (sc tc : Int) (stats : MismatchStats)
    (h : compareTablesE cfg db ex tS tT tM = .ok (sc, tc, stats)) :
    get_mismatch_stats tM ex = .ok stats := by
  unfold compareTablesE at h
  repeat' split at h
  all_goals simp_all

/-! ## Claim theorems -/

/-- C9: for every input string, the `ValidationResult` returned by `validate`
satisfies: `sanitizedQuery` is non-null iff `isSafe` is true and `violations`
is empty; `isSafe` is true iff `violations` is empty; and a non-null
`sanitizedQuery` never ends with a semicolon. -/
theorem c9_validation_result_invariants (q : List Char) :
    (validate q).sanitized_query.isSome
        = ((validate q).is_safe && (validate q).violations.isEmpty) ∧
    (validate q).is_safe = (validate q).violations.isEmpty ∧
    ends_with_semi (validate q).sanitized_query = false := by
  unfold validate
  split
  · simp [ends_with_semi]
  · dsimp only
    cases hv : (validate_violations (pyStrip q) (upperL (pyStrip q))
        (detect_query_type (upperL (pyStrip q)))).isEmpty <;>
      simp [hv, ends_with_semi, pyRstripSemis_no_semi]

/-- C10 (implicit): for every call to `compareTables` — whatever the config,
dialect, executor behaviour and timing — the returned
`ComparisonResult.matching_rows` equals 0: the field is never computed from
the compared data. -/
theorem c10_matching_rows_always_zero (cfg : ComparisonConfig) (db : DbType) (ex : ExecFn)
    (tS tT tM : String) (elapsed : Rat) :
    (compareTables cfg db ex tS tT tM elapsed).matching_rows = 0 := by
  unfold compareTables
  cases h : compareTablesE cfg db ex tS tT tM with
  | error e => rfl
  | ok v =>
    obtain ⟨sc, tc, stats⟩ := v
    have hst := get_mismatch_stats_matching tM ex stats
      (compareTablesE_ok_inv cfg db ex tS tT tM sc tc stats h)
    simp [hst]

/-- C8: for every dialect, executor (drops may fail on any subset of names)
and registry state, `cleanupTempTables` leaves the registry empty and issues
the dialect-appropriate DROP statement for every name that was registered,
in order — a failing drop does not prevent the remaining drops. -/
theorem c8_cleanup_drops_all_and_clears (db : DbType) (ex : ExecFn) (registry : List String) :
    cleanup_temp_tables db ex registry = (registry.map (drop_sql db), []) := by
  unfold cleanup_temp_tables
  rw [cleanup_drops_eq]

/-- C6: for every MySQL plan text, the parser computes `estimatedRows` as the
single `rows:` capture when exactly one occurs, the product of all captures
when several occur, and 0 when none; `estimatedCost` as 1000 for
`Using filesort` plus 500 for `Using temporary`; and
`estimatedTimeSec = totalRows/1,000,000 + cost/1000`. -/
theorem c6_mysql_plan_fields (plan : List Char) :
    (parse_mysql_plan plan).estimated_rows =
      (match mysql_rows_matches plan with
       | [] => 0
       | [n] => n
       | ns => ns.foldl (fun a b => a * b) 1) ∧
    (parse_mysql_plan plan).estimated_cost =
      (if containsSub "Using filesort".data plan then (1000 : Rat) else 0) +
      (if containsSub "Using temporary".data plan then (500 : Rat) else 0) ∧
    (parse_mysql_plan plan).estimated_time_sec =
      ((parse_mysql_plan plan).estimated_rows : Rat) / 1000000 +
      (parse_mysql_plan plan).estimated_cost / 1000 := by
  refine ⟨?_, ?_, ?_⟩ <;>
    rcases h : mysql_rows_matches plan with _ | ⟨a, _ | ⟨b, t⟩⟩ <;>
      simp [parse_mysql_plan, h]

/-- C5: `analyzeQueryCost` is total (it always returns a `PlanAnalysis`; the
embedding is a total function), and whenever the EXPLAIN call or the plan
parsing raises — including a raising `explainFn` and an unsupported dialect
string — the result carries a non-null `errorMessage`, `isAcceptable = false`
and `costLevel = EXCESSIVE`. -/
theorem c5_analyze_error_is_blocked (query db_type : String)
    (explainFn : String → Except String (List Char)) (e : String)
    (h : analyze_query_cost_E query db_type explainFn = .error e) :
    (analyze_query_cost query db_type explainFn).error_message
        = some ("Plan analysis failed: " ++ e) ∧
    (analyze_query_cost query db_type explainFn).is_acceptable = false ∧
    (analyze_query_cost query db_type explainFn).cost_level = ExecutionCost.excessive := by
  unfold analyze_query_cost
  rw [h]
  exact ⟨rfl, rfl, rfl⟩

theorem c5_analyze_error_is_blocked_witness :
    (analyze_query_cost_E "SELECT 1" "sqlite" (fun _ => Except.error "boom")
        = .error "Unsupported database type: sqlite") ∧
    ((analyze_query_cost "SELECT 1" "sqlite" (fun _ => Except.error "boom")).error_message
        = some ("Plan analysis failed: " ++ "Unsupported database type: sqlite") ∧
     (analyze_query_cost "SELECT 1" "sqlite" (fun _ => Except.error "boom")).is_acceptable = false ∧
     (analyze_query_cost "SELECT 1" "sqlite" (fun _ => Except.error "boom")).cost_level
        = ExecutionCost.excessive) :=
  ⟨rfl, c5_analyze_error_is_blocked "SELECT 1" "sqlite" (fun _ => Except.error "boom")
    "Unsupported database type: sqlite" rfl⟩

/-- C7: whenever the executor raises during `compareTables` (so the `try`
body of the comparison errors), the exception does not propagate and the
result is the error record: `matchStatus = error`, all row counters 0, the
original exception text preserved in `errorMessage`, and a nonnegative
comparison time. -/
theorem c7_compare_error_path (cfg : ComparisonConfig) (db : DbType) (ex : ExecFn)
    (tS tT tM : String) (elapsed : Rat) (e : String)
    (h : compareTablesE cfg db ex tS tT tM = .error e)
    (helapsed : 0 ≤ elapsed) :
    compareTables cfg db ex tS tT tM elapsed
        = ⟨.error, 0, 0, 0, 0, 0, 0, elapsed, Option.none, some e⟩ ∧
    0 ≤ (compareTables cfg db ex tS tT tM elapsed).comparison_time_sec := by
  unfold compareTables
  rw [h]
  exact ⟨rfl, helapsed⟩

theorem c7_compare_error_path_witness :
    (compareTablesE ⟨"SELECT 1", "SELECT 2", ["ID"], Option.none, true, false, false⟩
        DbType.oracle (fun _ => Except.error "connection lost") "ts" "tt" "tm"
        = .error "connection lost") ∧
    (0 : Rat) ≤ 1 ∧
    (compareTables ⟨"SELECT 1", "SELECT 2", ["ID"], Option.none, true, false, false⟩
        DbType.oracle (fun _ => Except.error "connection lost") "ts" "tt" "tm" 1
        = ⟨.error, 0, 0, 0, 0, 0, 0, 1, Option.none, some "connection lost"⟩ ∧
     0 ≤ (compareTables ⟨"SELECT 1", "SELECT 2", ["ID"], Option.none, true, false, false⟩
        DbType.oracle (fun _ => Except.error "connection lost") "ts" "tt" "tm" 1).comparison_time_sec) :=
  ⟨rfl, by norm_num,
   c7_compare_error_path ⟨"SELECT 1", "SELECT 2", ["ID"], Option.none, true, false, false⟩
     DbType.oracle (fun _ => Except.error "connection lost") "ts" "tt" "tm" 1
     "connection lost" rfl (by norm_num)⟩

theorem determine_cost_level_excessive_iff (t : Rat) :
    determine_cost_level t = ExecutionCost.excessive ↔ t > MAX_EXECUTION_TIME_SEC := by
  unfold determine_cost_level
  split_ifs <;> simp_all

theorem parse_oracle_cost_level (plan : List Char) :
    (parse_oracle_plan plan).cost_level
        = determine_cost_level (parse_oracle_plan plan).estimated_time_sec := rfl

theorem parse_mysql_cost_level (plan : List Char) :
    (parse_mysql_plan plan).cost_level
        = determine_cost_level (parse_mysql_plan plan).estimated_time_sec := rfl

theorem parse_pg_cost_level (plan : List Char) (a : PlanAnalysis)
    (h : parse_postgresql_plan plan = .ok a) :
    a.cost_level = determine_cost_level a.estimated_time_sec := by
  unfold parse_postgresql_plan at h
  split at h
  · exact absurd h (by simp)
  · injection h with h2
    subst h2
    rfl

theorem dispatch_parse_cost_level (db_type : String) (plan : List Char) (a : PlanAnalysis)
    (h : dispatch_parse db_type plan = .ok a) :
    a.cost_level = determine_cost_level a.estimated_time_sec := by
  unfold dispatch_parse at h
  split_ifs at h <;>
    first
      | (injection h with h2; subst h2; exact parse_oracle_cost_level plan)
      | (injection h with h2; subst h2; exact parse_mysql_cost_level plan)
      | (exact parse_pg_cost_level plan a h)
      | simp at h

theorem analyzeE_ok_inv (query db_type : String)
    (explainFn : String → Except String (List Char)) (a : PlanAnalysis)
    (h : analyze_query_cost_E query db_type explainFn = .ok a) :
    a.cost_level = determine_cost_level a.estimated_time_sec ∧
    a.is_acceptable = decide (a.estimated_time_sec ≤ MAX_EXECUTION_TIME_SEC) := by
  unfold analyze_query_cost_E at h
  repeat' split at h
  all_goals try exact Except.noConfusion h
  next a0 heq =>
    injection h with h2
    subst h2
    have hc := dispatch_parse_cost_level db_type _ a0 heq
    exact ⟨hc, rfl⟩

/-- C2 (amended): whenever the EXPLAIN-and-parse pipeline completes without
an exception (any of the three dialects), the returned `PlanAnalysis`
satisfies `costLevel = EXCESSIVE` iff `estimatedTimeSec > 300`, and
`isAcceptable` iff `estimatedTimeSec ≤ 300`.  (As stated over *any*
`explainFn` outcome the claim is false: see the counterexample.) -/
theorem c2_cost_level_threshold (query db_type : String)
    (explainFn : String → Except String (List Char)) (a : PlanAnalysis)
    (h : analyze_query_cost_E query db_type explainFn = .ok a) :
    ((analyze_query_cost query db_type explainFn).cost_level = ExecutionCost.excessive
        ↔ (analyze_query_cost query db_type explainFn).estimated_time_sec > 300) ∧
    ((analyze_query_cost query db_type explainFn).is_acceptable = true
        ↔ (analyze_query_cost query db_type explainFn).estimated_time_sec ≤ 300) := by
  have hq : analyze_query_cost query db_type explainFn = a := by
    unfold analyze_query_cost
    rw [h]
  obtain ⟨hc, hacc⟩ := analyzeE_ok_inv query db_type explainFn a h
  rw [hq, hc, hacc]
  constructor
  · exact determine_cost_level_excessive_iff a.estimated_time_sec
  · simp [MAX_EXECUTION_TIME_SEC]

theorem c2_cost_level_threshold_witness :
    (analyze_query_cost_E "SELECT 1" "mysql" (fun _ => Except.ok "rows: 5".data)
        = .ok (analyze_query_cost "SELECT 1" "mysql" (fun _ => Except.ok "rows: 5".data))) ∧
    (((analyze_query_cost "SELECT 1" "mysql" (fun _ => Except.ok "rows: 5".data)).cost_level
          = ExecutionCost.excessive
        ↔ (analyze_query_cost "SELECT 1" "mysql"
            (fun _ => Except.ok "rows: 5".data)).estimated_time_sec > 300) ∧
     ((analyze_query_cost "SELECT 1" "mysql" (fun _ => Except.ok "rows: 5".data)).is_acceptable = true
        ↔ (analyze_query_cost "SELECT 1" "mysql"
            (fun _ => Except.ok "rows: 5".data)).estimated_time_sec ≤ 300)) :=
  ⟨rfl, c2_cost_level_threshold "SELECT 1" "mysql" (fun _ => Except.ok "rows: 5".data)
    (analyze_query_cost "SELECT 1" "mysql" (fun _ => Except.ok "rows: 5".data)) rfl⟩

/-- C2 counterexample: with a raising `explainFn` the result has
`costLevel = EXCESSIVE` while `estimatedTimeSec = 0 ≤ 300` — so the claimed
equivalences fail on the error path. -/
theorem c2_counterexample :
    (analyze_query_cost "SELECT 1" "mysql" (fun _ => Except.error "explain failed")).cost_level
        = ExecutionCost.excessive ∧
    (analyze_query_cost "SELECT 1" "mysql"
        (fun _ => Except.error "explain failed")).estimated_time_sec ≤ 300 ∧
    (analyze_query_cost "SELECT 1" "mysql"
        (fun _ => Except.error "explain failed")).is_acceptable = false := by
  refine ⟨rfl, ?_, rfl⟩
  show (0 : Rat) ≤ 300
  norm_num

theorem validate_query_type_eq (q : List Char) (h : (pyStrip q).isEmpty = false) :
    (validate q).query_type = detect_query_type (upperL (pyStrip q)) := by
  unfold validate
  rw [if_neg]
  simp [h]

theorem validate_violations_eq (q : List Char) (h : (pyStrip q).isEmpty = false) :
    (validate q).violations
      = validate_violations (pyStrip q) (upperL (pyStrip q))
          (detect_query_type (upperL (pyStrip q))) := by
  unfold validate
  rw [if_neg]
  simp [h]

theorem validate_sanitized_eq (q : List Char) (h : (pyStrip q).isEmpty = false) :
    (validate q).sanitized_query
      = (if (validate_violations (pyStrip q) (upperL (pyStrip q))
              (detect_query_type (upperL (pyStrip q)))).isEmpty
         then some (pyRstripSemis (pyStrip (pyStrip q))) else Option.none) := by
  unfold validate
  rw [if_neg]
  simp [h]

theorem validate_is_safe_eq (q : List Char) (h : (pyStrip q).isEmpty = false) :
    (validate q).is_safe
      = (validate_violations (pyStrip q) (upperL (pyStrip q))
          (detect_query_type (upperL (pyStrip q)))).isEmpty := by
  unfold validate
  rw [if_neg]
  simp [h]

theorem detect_query_type_not_allowed (u : List Char)
    (hns : "SELECT".data.isPrefixOf (detect_clean u) = false)
    (hnw : "WITH".data.isPrefixOf (detect_clean u) = false) :
    detect_query_type u ≠ "SELECT" ∧ detect_query_type u ≠ "WITH" := by
  unfold detect_query_type
  rw [if_neg (by simp [hns]), if_neg (by simp [hnw])]
  cases hw : ((detect_clean u).takeWhile isWordChar).isEmpty
  · rw [if_neg (by simp [hw])]
    constructor
    · intro heq
      have hdata : (detect_clean u).takeWhile isWordChar = "SELECT".data :=
        congrArg String.data heq
      have hpre : "SELECT".data <+: detect_clean u := by
        rw [← hdata]; exact List.takeWhile_prefix _
      rw [← List.isPrefixOf_iff_prefix] at hpre
      simp [hpre] at hns
    · intro heq
      have hdata : (detect_clean u).takeWhile isWordChar = "WITH".data :=
        congrArg String.data heq
      have hpre : "WITH".data <+: detect_clean u := by
        rw [← hdata]; exact List.takeWhile_prefix _
      rw [← List.isPrefixOf_iff_prefix] at hpre
      simp [hpre] at hnw
  · rw [if_pos (by simp [hw])]
    constructor <;> decide

/-- C4 (amended): `validate` detects the query type by stripping leading
whitespace, then at most one leading block comment, then at most one leading
line comment — in this order, with no whitespace re-stripping in between.
When the cleaned text starts with `SELECT` the query type is `SELECT`
(so a leading comment *immediately* followed by `SELECT` yields `SELECT`);
when the cleaned text starts with neither `SELECT` nor `WITH`, the resulting
query type is neither of the two and a violation is recorded.  (As the claim
stated it — first token after the comment, whitespace allowed in between —
it is false: see the counterexample.) -/
theorem c4_query_type_detection (q : List Char) (h : (pyStrip q).isEmpty = false) :
    (validate q).query_type = detect_query_type (upperL (pyStrip q)) ∧
    ("SELECT".data.isPrefixOf (detect_clean (upperL (pyStrip q))) = true →
        (validate q).query_type = "SELECT") ∧
    ("SELECT".data.isPrefixOf (detect_clean (upperL (pyStrip q))) = false →
     "WITH".data.isPrefixOf (detect_clean (upperL (pyStrip q))) = false →
        (validate q).query_type ≠ "SELECT" ∧ (validate q).query_type ≠ "WITH" ∧
        (validate q).violations ≠ []) := by
  have h1 := validate_query_type_eq q h
  refine ⟨h1, ?_, ?_⟩
  · intro hs
    rw [h1]
    unfold detect_query_type
    rw [if_pos (by simp [hs])]
  · intro hns hnw
    obtain ⟨hne1, hne2⟩ := detect_query_type_not_allowed (upperL (pyStrip q)) hns hnw
    refine ⟨by rw [h1]; exact hne1, by rw [h1]; exact hne2, ?_⟩
    rw [validate_violations_eq q h]
    unfold validate_violations
    rw [if_neg (by simp [ALLOWED_STARTS, hne1, hne2])]
    simp

theorem c4_query_type_detection_witness :
    ((pyStrip "/*C*/SELECT 1".data).isEmpty = false) ∧
    ((validate "/*C*/SELECT 1".data).query_type
        = detect_query_type (upperL (pyStrip "/*C*/SELECT 1".data)) ∧
     ("SELECT".data.isPrefixOf (detect_clean (upperL (pyStrip "/*C*/SELECT 1".data))) = true →
        (validate "/*C*/SELECT 1".data).query_type = "SELECT") ∧
     ("SELECT".data.isPrefixOf (detect_clean (upperL (pyStrip "/*C*/SELECT 1".data))) = false →
      "WITH".data.isPrefixOf (detect_clean (upperL (pyStrip "/*C*/SELECT 1".data))) = false →
        (validate "/*C*/SELECT 1".data).query_type ≠ "SELECT" ∧
        (validate "/*C*/SELECT 1".data).query_type ≠ "WITH" ∧
        (validate "/*C*/SELECT 1".data).violations ≠ [])) :=
  ⟨by decide, c4_query_type_detection "/*C*/SELECT 1".data (by decide)⟩

/-- C4 counterexample: the first token after the leading block comment of
`/* C */ SELECT 1` is `SELECT`, yet the detected query type is `INVALID`
(the detector strips no whitespace after the comment), refuting the claim
that such a query gets `queryType SELECT`. -/
theorem c4_counterexample :
    (validate "/* C */ SELECT 1".data).query_type = "INVALID" ∧
    decide ((validate "/* C */ SELECT 1".data).query_type = "SELECT") = false := by
  exact ⟨by decide, by decide⟩

theorem applyRow_mt_eq (st : MismatchStats) (c : Int) :
    (applyRow st (PyVal.str "missing_in_target") c).missing_in_target = c := by
  unfold applyRow
  rw [if_pos rfl]

theorem applyRow_ms_eq (st : MismatchStats) (c : Int) :
    (applyRow st (PyVal.str "missing_in_source") c).missing_in_source = c := by
  unfold applyRow
  rw [if_neg (by decide), if_pos rfl]

theorem applyRow_mv_eq (st : MismatchStats) (c : Int) :
    (applyRow st (PyVal.str "value_mismatch") c).mismatched_values = c := by
  unfold applyRow
  rw [if_neg (by decide), if_neg (by decide), if_pos rfl]

theorem applyRow_mt (st : MismatchStats) (t : PyVal) (c : Int)
    (h : t ≠ PyVal.str "missing_in_target") :
    (applyRow st t c).missing_in_target = st.missing_in_target := by
  unfold applyRow
  split_ifs <;> first | rfl | exact absurd (by assumption) h

theorem applyRow_ms (st : MismatchStats) (t : PyVal) (c : Int)
    (h : t ≠ PyVal.str "missing_in_source") :
    (applyRow st t c).missing_in_source = st.missing_in_source := by
  unfold applyRow
  split_ifs <;> first | rfl | exact absurd (by assumption) h

theorem applyRow_mv (st : MismatchStats) (t : PyVal) (c : Int)
    (h : t ≠ PyVal.str "value_mismatch") :
    (applyRow st t c).mismatched_values = st.mismatched_values := by
  unfold applyRow
  split_ifs <;> first | rfl | exact absurd (by assumption) h

theorem type_field_applyRow_ne (st : MismatchStats) (t t' : PyVal) (c : Int) (hne : t' ≠ t) :
    type_field (applyRow st t c) t' = type_field st t' := by
  unfold type_field
  split_ifs with h1 h2 h3
  · subst h1; exact applyRow_mt st t c (Ne.symm hne)
  · subst h2; exact applyRow_ms st t c (Ne.symm hne)
  · subst h3; exact applyRow_mv st t c (Ne.symm hne)
  · rfl

theorem type_field_init (t : PyVal) : type_field {} t = 0 := by
  unfold type_field
  split_ifs <;> rfl

theorem applyRow_invariant (st : MismatchStats) (t : PyVal) (c : Int)
    (ht : t ∈ VALID_TYPES) (hfr : type_field st t = 0)
    (htot : st.total_mismatches
      = st.missing_in_target + st.missing_in_source + st.mismatched_values)
    (hc : 0 ≤ c) (h1 : 0 ≤ st.missing_in_target) (h2 : 0 ≤ st.missing_in_source)
    (h3 : 0 ≤ st.mismatched_values) :
    (applyRow st t c).total_mismatches
        = (applyRow st t c).missing_in_target + (applyRow st t c).missing_in_source
            + (applyRow st t c).mismatched_values ∧
    0 ≤ (applyRow st t c).missing_in_target ∧ 0 ≤ (applyRow st t c).missing_in_source ∧
    0 ≤ (applyRow st t c).mismatched_values := by
  have htotal := applyRow_total st t c
  have ht3 : t = PyVal.str "missing_in_target" ∨ t = PyVal.str "missing_in_source"
      ∨ t = PyVal.str "value_mismatch" := by simpa [VALID_TYPES] using ht
  rcases ht3 with rfl | rfl | rfl
  · have e1 := applyRow_mt_eq st c
    have e2 := applyRow_ms st (PyVal.str "missing_in_target") c (by decide)
    have e3 := applyRow_mv st (PyVal.str "missing_in_target") c (by decide)
    have hz : st.missing_in_target = 0 := by
      rw [type_field, if_pos rfl] at hfr; exact hfr
    rw [htotal, e1, e2, e3]
    refine ⟨by omega, hc, h2, h3⟩
  · have e1 := applyRow_mt st (PyVal.str "missing_in_source") c (by decide)
    have e2 := applyRow_ms_eq st c
    have e3 := applyRow_mv st (PyVal.str "missing_in_source") c (by decide)
    have hz : st.missing_in_source = 0 := by
      rw [type_field, if_neg (by decide), if_pos rfl] at hfr; exact hfr
    rw [htotal, e1, e2, e3]
    refine ⟨by omega, h1, hc, h3⟩
  · have e1 := applyRow_mt st (PyVal.str "value_mismatch") c (by decide)
    have e2 := applyRow_ms st (PyVal.str "value_mismatch") c (by decide)
    have e3 := applyRow_mv_eq st c
    have hz : st.mismatched_values = 0 := by
      rw [type_field, if_neg (by decide), if_neg (by decide), if_pos rfl] at hfr; exact hfr
    rw [htotal, e1, e2, e3]
    refine ⟨by omega, h1, h2, hc⟩

theorem statsLoop_wf :
    ∀ (rows : List PyRow) (st : MismatchStats),
      (∀ r ∈ rows, WFRow r) →
      ((rows.filterMap rowType).Nodup) →
      (∀ r ∈ rows, ∀ t, rowType r = some t → type_field st t = 0) →
      st.total_mismatches
          = st.missing_in_target + st.missing_in_source + st.mismatched_values →
      0 ≤ st.missing_in_target → 0 ≤ st.missing_in_source → 0 ≤ st.mismatched_values →
      ∀ st', statsLoop st rows = .ok st' →
        st'.total_mismatches
            = st'.missing_in_target + st'.missing_in_source + st'.mismatched_values ∧
        0 ≤ st'.missing_in_target ∧ 0 ≤ st'.missing_in_source ∧ 0 ≤ st'.mismatched_values := by
  intro rows
  induction rows with
  | nil =>
    intro st _ _ _ htot h1 h2 h3 st' h
    cases h
    exact ⟨htot, h1, h2, h3⟩
  | cons r rs ih =>
    intro st hwf hnd hfresh htot h1 h2 h3 st' h
    simp only [statsLoop] at h
    cases hs : statsStep st r with
    | error e => simp only [hs] at h; exact Except.noConfusion h
    | ok st1 =>
      simp only [hs] at h
      cases hk : rowKV r with
      | none =>
        simp only [statsStep, hk, Except.ok.injEq] at hs
        subst hs
        refine ih st (fun r hr => hwf r (List.mem_cons_of_mem _ hr)) ?_ ?_ htot h1 h2 h3 st' h
        · have : (r :: rs).filterMap rowType = rs.filterMap rowType := by
            simp [List.filterMap_cons, rowType, hk]
          rw [this] at hnd
          exact hnd
        · intro r' hr' t' ht'
          exact hfresh r' (List.mem_cons_of_mem _ hr') t' ht'
      | some tv =>
        obtain ⟨t, cv⟩ := tv
        obtain ⟨⟨c, hc, hcpos⟩, htv⟩ := hwf r (List.mem_cons_self _ _) t cv hk
        simp only [statsStep, hk, hc, Except.ok.injEq] at hs
        subst hs
        have hrt : rowType r = some t := by simp [rowType, hk]
        have hcons : (r :: rs).filterMap rowType = t :: rs.filterMap rowType := by
          simp [List.filterMap_cons, hrt]
        rw [hcons] at hnd
        have hnotmem : t ∉ rs.filterMap rowType := (List.nodup_cons.mp hnd).1
        have hnd' : (rs.filterMap rowType).Nodup := (List.nodup_cons.mp hnd).2
        have hfr : type_field st t = 0 := hfresh r (List.mem_cons_self _ _) t hrt
        obtain ⟨htot', h1', h2', h3'⟩ :=
          applyRow_invariant st t c htv hfr htot hcpos h1 h2 h3
        refine ih (applyRow st t c) (fun r hr => hwf r (List.mem_cons_of_mem _ hr))
          hnd' ?_ htot' h1' h2' h3' st' h
        intro r' hr' t' ht'
        have ht'mem : t' ∈ rs.filterMap rowType := List.mem_filterMap.mpr ⟨r', hr', ht'⟩
        have hne : t' ≠ t := fun e => hnotmem (e ▸ ht'mem)
        rw [type_field_applyRow_ne st t t' c hne]
        exact hfresh r' (List.mem_cons_of_mem _ hr') t' ht'

theorem get_stats_wf (rows : List PyRow) (stats : MismatchStats)
    (h : get_mismatch_stats_rows rows = .ok stats) (hwf : WFRows rows) :
    stats.total_mismatches
        = stats.missing_in_target + stats.missing_in_source + stats.mismatched_values ∧
    0 ≤ stats.missing_in_target ∧ 0 ≤ stats.missing_in_source ∧
    0 ≤ stats.mismatched_values := by
  unfold get_mismatch_stats_rows at h
  by_cases he : rows.isEmpty
  · rw [if_pos he] at h
    cases h
    exact ⟨rfl, le_refl _, le_refl _, le_refl _⟩
  · rw [if_neg he] at h
    exact statsLoop_wf rows {} hwf.1 hwf.2 (fun r _ t _ => type_field_init t) rfl
      (le_refl _) (le_refl _) (le_refl _) stats h

/-- C1 (amended): for runs of `compareTables` whose mismatch-stats query, when
it succeeds, returns well-formed GROUP BY rows (each row one of the three
mismatch tags, tags pairwise distinct, nonnegative counts): on a non-error
result, `matchStatus = identical` iff
`missingInTarget + missingInSource + mismatchedRows = 0`; and on an error
result every row-count field is 0 and `tempTableName` is null.  (As stated —
the `identical` equivalence required of *every* result including errors — the
claim is false: see the counterexample.) -/
theorem c1_match_status_invariant (cfg : ComparisonConfig) (db : DbType) (ex : ExecFn)
    (tS tT tM : String) (elapsed : Rat)
    (hwf : ∀ rows, ex (stats_sql tM) = .ok rows → WFRows rows) :
    ((compareTables cfg db ex tS tT tM elapsed).match_status = MatchStatus.error →
      (compareTables cfg db ex tS tT tM elapsed).total_rows_source = 0 ∧
      (compareTables cfg db ex tS tT tM elapsed).total_rows_target = 0 ∧
      (compareTables cfg db ex tS tT tM elapsed).matching_rows = 0 ∧
      (compareTables cfg db ex tS tT tM elapsed).missing_in_target = 0 ∧
      (compareTables cfg db ex tS tT tM elapsed).missing_in_source = 0 ∧
      (compareTables cfg db ex tS tT tM elapsed).mismatched_rows = 0 ∧
      (compareTables cfg db ex tS tT tM elapsed).temp_table_name = Option.none) ∧
    ((compareTables cfg db ex tS tT tM elapsed).match_status ≠ MatchStatus.error →
      ((compareTables cfg db ex tS tT tM elapsed).match_status = MatchStatus.identical ↔
        (compareTables cfg db ex tS tT tM elapsed).missing_in_target
          + (compareTables cfg db ex tS tT tM elapsed).missing_in_source
          + (compareTables cfg db ex tS tT tM elapsed).mismatched_rows = 0)) := by
  unfold compareTables
  cases h : compareTablesE cfg db ex tS tT tM with
  | error e =>
    constructor
    · intro _
      exact ⟨rfl, rfl, rfl, rfl, rfl, rfl, rfl⟩
    · intro hne
      exact absurd rfl hne
  | ok v =>
    obtain ⟨sc, tc, stats⟩ := v
    have hstats := compareTablesE_ok_inv cfg db ex tS tT tM sc tc stats h
    have hinv : stats.total_mismatches
        = stats.missing_in_target + stats.missing_in_source + stats.mismatched_values ∧
        0 ≤ stats.missing_in_target ∧ 0 ≤ stats.missing_in_source ∧
        0 ≤ stats.mismatched_values := by
      unfold get_mismatch_stats at hstats
      cases hr : ex (stats_sql tM) with
      | error e => rw [hr] at hstats; exact Except.noConfusion hstats
      | ok rows =>
        rw [hr] at hstats
        exact get_stats_wf rows stats hstats (hwf rows hr)
    obtain ⟨htot, h1, h2, h3⟩ := hinv
    constructor
    · intro habs
      exfalso
      revert habs
      dsimp only
      split <;> simp
    · intro _
      dsimp only
      by_cases hpos : stats.total_mismatches > 0
      · rw [if_pos hpos]
        constructor
        · intro habs; exact absurd habs (by decide)
        · intro hsum; exfalso; omega
      · rw [if_neg hpos]
        constructor
        · intro _; omega
        · intro _; rfl

theorem c1_match_status_invariant_witness :
    (∀ rows, ((fun _ => Except.ok []) : ExecFn) (stats_sql "tm") = .ok rows
        → WFRows rows) ∧
    (((compareTables ⟨"SELECT 1", "SELECT 2", ["ID"], Option.none, true, false, false⟩
          DbType.postgresql ((fun _ => Except.ok []) : ExecFn) "ts" "tt" "tm" 1).match_status
            = MatchStatus.error →
        (compareTables ⟨"SELECT 1", "SELECT 2", ["ID"], Option.none, true, false, false⟩
          DbType.postgresql ((fun _ => Except.ok []) : ExecFn) "ts" "tt" "tm" 1).total_rows_source = 0 ∧
        (compareTables ⟨"SELECT 1", "SELECT 2", ["ID"], Option.none, true, false, false⟩
          DbType.postgresql ((fun _ => Except.ok []) : ExecFn) "ts" "tt" "tm" 1).total_rows_target = 0 ∧
        (compareTables ⟨"SELECT 1", "SELECT 2", ["ID"], Option.none, true, false, false⟩
          DbType.postgresql ((fun _ => Except.ok []) : ExecFn) "ts" "tt" "tm" 1).matching_rows = 0 ∧
        (compareTables ⟨"SELECT 1", "SELECT 2", ["ID"], Option.none, true, false, false⟩
          DbType.postgresql ((fun _ => Except.ok []) : ExecFn) "ts" "tt" "tm" 1).missing_in_target = 0 ∧
        (compareTables ⟨"SELECT 1", "SELECT 2", ["ID"], Option.none, true, false, false⟩
          DbType.postgresql ((fun _ => Except.ok []) : ExecFn) "ts" "tt" "tm" 1).missing_in_source = 0 ∧
        (compareTables ⟨"SELECT 1", "SELECT 2", ["ID"], Option.none, true, false, false⟩
          DbType.postgresql ((fun _ => Except.ok []) : ExecFn) "ts" "tt" "tm" 1).mismatched_rows = 0 ∧
        (compareTables ⟨"SELECT 1", "SELECT 2", ["ID"], Option.none, true, false, false⟩
          DbType.postgresql ((fun _ => Except.ok []) : ExecFn) "ts" "tt" "tm" 1).temp_table_name
            = Option.none) ∧
     ((compareTables ⟨"SELECT 1", "SELECT 2", ["ID"], Option.none, true, false, false⟩
          DbType.postgresql ((fun _ => Except.ok []) : ExecFn) "ts" "tt" "tm" 1).match_status
            ≠ MatchStatus.error →
        ((compareTables ⟨"SELECT 1", "SELECT 2", ["ID"], Option.none, true, false, false⟩
            DbType.postgresql ((fun _ => Except.ok []) : ExecFn) "ts" "tt" "tm" 1).match_status
              = MatchStatus.identical ↔
          (compareTables ⟨"SELECT 1", "SELECT 2", ["ID"], Option.none, true, false, false⟩
            DbType.postgresql ((fun _ => Except.ok []) : ExecFn) "ts" "tt" "tm" 1).missing_in_target
            + (compareTables ⟨"SELECT 1", "SELECT 2", ["ID"], Option.none, true, false, false⟩
                DbType.postgresql ((fun _ => Except.ok []) : ExecFn) "ts" "tt" "tm" 1).missing_in_source
            + (compareTables ⟨"SELECT 1", "SELECT 2", ["ID"], Option.none, true, false, false⟩
                DbType.postgresql ((fun _ => Except.ok []) : ExecFn) "ts" "tt" "tm" 1).mismatched_rows
              = 0))) := by
  have hwf : ∀ rows, ((fun _ => Except.ok []) : ExecFn) (stats_sql "tm") = .ok rows
      → WFRows rows := by
    intro rows h
    injection h with h2
    subst h2
    exact ⟨(by intro r hr; cases hr), (by simp)⟩
  exact ⟨hwf,
    c1_match_status_invariant ⟨"SELECT 1", "SELECT 2", ["ID"], Option.none, true, false, false⟩
      DbType.postgresql ((fun _ => Except.ok []) : ExecFn) "ts" "tt" "tm" 1 hwf⟩

/-- C1 counterexample: a raising executor yields a result with
`matchStatus = error` (hence not `identical`) while
`missingInTarget + missingInSource + mismatchedRows = 0`, so the claimed
equivalence `identical ↔ sum = 0` fails on error results. -/
theorem c1_counterexample :
    (compareTables ⟨"SELECT 1", "SELECT 2", ["ID"], Option.none, true, false, false⟩
        DbType.postgresql (fun _ => Except.error "boom") "ts" "tt" "tm" 1).match_status
        = MatchStatus.error ∧
    (compareTables ⟨"SELECT 1", "SELECT 2", ["ID"], Option.none, true, false, false⟩
        DbType.postgresql (fun _ => Except.error "boom") "ts" "tt" "tm" 1).missing_in_target
      + (compareTables ⟨"SELECT 1", "SELECT 2", ["ID"], Option.none, true, false, false⟩
          DbType.postgresql (fun _ => Except.error "boom") "ts" "tt" "tm" 1).missing_in_source
      + (compareTables ⟨"SELECT 1", "SELECT 2", ["ID"], Option.none, true, false, false⟩
          DbType.postgresql (fun _ => Except.error "boom") "ts" "tt" "tm" 1).mismatched_rows
        = 0 ∧
    decide ((compareTables ⟨"SELECT 1", "SELECT 2", ["ID"], Option.none, true, false, false⟩
        DbType.postgresql (fun _ => Except.error "boom") "ts" "tt" "tm" 1).match_status
        = MatchStatus.identical) = false := by
  exact ⟨rfl, by decide, by decide⟩

theorem dropWhile_idem {α : Type} (p : α → Bool) (l : List α) :
    (l.dropWhile p).dropWhile p = l.dropWhile p := by
  cases h : l.dropWhile p with
  | nil => rfl
  | cons a t =>
    have ha : p a = false := dropWhile_head_not p l a (by rw [h]; rfl)
    rw [List.dropWhile_cons, if_neg (by simp [ha])]

theorem dropWhile_of_head_not {α : Type} (p : α → Bool) (l : List α)
    (h : ∀ a, l.head? = some a → p a = false) : l.dropWhile p = l := by
  cases l with
  | nil => rfl
  | cons a t =>
    have := h a rfl
    rw [List.dropWhile_cons, if_neg (by simp [this])]

theorem dropWhile_suffix' {α : Type} (p : α → Bool) (l : List α) : l.dropWhile p <:+ l := by
  induction l with
  | nil => exact List.suffix_rfl
  | cons a t ih =>
    rw [List.dropWhile_cons]
    by_cases h : p a
    · rw [if_pos h]; exact ih.trans (List.suffix_cons a t)
    · rw [if_neg h]

theorem getLast?_suffix {α : Type} {l₁ l₂ : List α} (h : l₁ <:+ l₂) (hne : l₁ ≠ []) :
    l₁.getLast? = l₂.getLast? := by
  obtain ⟨pre, rfl⟩ := h
  rw [List.getLast?_append_of_ne_nil pre hne]

theorem pyStrip_idem (l : List Char) : pyStrip (pyStrip l) = pyStrip l := by
  unfold pyStrip
  have hstep1 :
      ((((l.dropWhile pyIsSpace).reverse.dropWhile pyIsSpace).reverse).dropWhile pyIsSpace)
        = ((l.dropWhile pyIsSpace).reverse.dropWhile pyIsSpace).reverse := by
    apply dropWhile_of_head_not
    intro a ha
    rw [List.head?_reverse] at ha
    have hYne : (l.dropWhile pyIsSpace).reverse.dropWhile pyIsSpace ≠ [] := by
      intro hnil
      rw [hnil] at ha
      cases ha
    have hsuf := dropWhile_suffix' pyIsSpace (l.dropWhile pyIsSpace).reverse
    rw [getLast?_suffix hsuf hYne, List.getLast?_reverse] at ha
    exact dropWhile_head_not pyIsSpace l a ha
  rw [hstep1, List.reverse_reverse, dropWhile_idem]

theorem takeWhile_nil_dropWhile {α : Type} (p : α → Bool) (l : List α)
    (h : l.takeWhile p = []) : l.dropWhile p = l := by
  cases l with
  | nil => rfl
  | cons a t =>
    rw [List.takeWhile_cons] at h
    by_cases hp : p a
    · rw [if_pos hp] at h; cases h
    · rw [List.dropWhile_cons, if_neg hp]

theorem pyRstripSemis_eq_drop_one (l : List Char) (h : trailing_semis l ≤ 1) :
    pyRstripSemis l = drop_one_trailing_semi l := by
  unfold pyRstripSemis drop_one_trailing_semi
  unfold trailing_semis at h
  cases hr : l.reverse with
  | nil =>
    have hl : l = [] := by
      have := congrArg List.reverse hr
      simpa using this
    subst hl
    rfl
  | cons c rs =>
    have hl : l = rs.reverse ++ [c] := by
      have := congrArg List.reverse hr
      simpa [List.reverse_cons] using this
    have hlast : l.getLast? = some c := by
      rw [hl, List.getLast?_append_of_ne_nil rs.reverse (by simp)]
      rfl
    by_cases hc : c = ';'
    · subst hc
      rw [hr, List.takeWhile_cons, if_pos (by simp)] at h
      simp only [List.length_cons] at h
      have htw : rs.takeWhile (fun c => c == ';') = [] := by
        have : (rs.takeWhile (fun c => c == ';')).length = 0 := by omega
        exact List.eq_nil_of_length_eq_zero this
      rw [List.dropWhile_cons, if_pos (by simp), takeWhile_nil_dropWhile _ _ htw]
      rw [if_pos hlast]
      rw [hl, List.dropLast_concat]
    · rw [List.dropWhile_cons, if_neg (by simp [hc])]
      rw [if_neg (by simp [hlast, hc])]
      rw [← hr, List.reverse_reverse]

/-- C3 (amended): every SQL string that, read after the validator's
whitespace-and-comment stripping, starts with `SELECT`; contains no
deny-listed keyword as a whole word (also in each segment following a
`UNION`); contains no `SELECT...INTO` pattern; has at most one semicolon
outside string literals and at most one trailing semicolon; and whose
comments contain no deny-listed keyword even as a substring — is validated
as safe, with `sanitizedQuery` equal to the input stripped of surrounding
whitespace and of the trailing semicolon.  (As stated — without the
comment-substring and UNION-segment conditions — the claim is false: see the
counterexample.) -/
theorem c3_safe_select_query (q : List Char)
    (hstart : "SELECT".data.isPrefixOf (detect_clean (upperL (pyStrip q))) = true)
    (hkw : ∀ kw ∈ DANGEROUS_KEYWORDS, hasWB kw.data (upperL (pyStrip q)) = false)
    (hinto : hasSelectInto (upperL (pyStrip q)) = false)
    (hsemi : semicolon_count (pyStrip q) ≤ 1)
    (htrail : trailing_semis (pyStrip q) ≤ 1)
    (hcomm : ∀ c ∈ block_comments (pyStrip q) ++ line_comments (pyStrip q),
        ∀ kw ∈ DANGEROUS_KEYWORDS, containsSub kw.data (upperL c) = false)
    (hunion : ∀ part ∈ (split_on_sub "UNION".data (upperL (pyStrip q))).drop 1,
        ∀ kw ∈ DANGEROUS_KEYWORDS, hasWB kw.data part = false) :
    (validate q).is_safe = true ∧
    (validate q).sanitized_query = some (drop_one_trailing_semi (pyStrip q)) := by
  have hne : (pyStrip q).isEmpty = false := by
    cases hq : pyStrip q with
    | nil =>
      rw [hq] at hstart
      exact absurd hstart (by decide)
    | cons a t => rfl
  have hqt : detect_query_type (upperL (pyStrip q)) = "SELECT" := by
    unfold detect_query_type
    rw [if_pos (by simp [hstart])]
  have hdang : check_dangerous_keywords (upperL (pyStrip q)) = [] := by
    unfold check_dangerous_keywords
    rw [List.filter_eq_nil_iff]
    intro kw hkwmem
    simp [hkw kw hkwmem]
  have hmulti : has_multiple_statements (pyStrip q) = false := by
    unfold has_multiple_statements
    simp only [decide_eq_false_iff_not]
    omega
  have hsusp : has_suspicious_comments (pyStrip q) = false := by
    unfold has_suspicious_comments
    rw [Bool.or_eq_false_iff]
    constructor <;>
    · rw [List.any_eq_false]
      intro c hc
      rw [Bool.not_eq_true]
      unfold suspicious_comment
      rw [List.any_eq_false]
      intro kw hkwm
      rw [Bool.not_eq_true]
      exact hcomm c (by simp [hc]) kw hkwm
  have huni : has_union_injection (upperL (pyStrip q)) = false := by
    unfold has_union_injection
    by_cases hc : containsSub "UNION".data (upperL (pyStrip q)) = true
    · rw [if_pos hc, List.any_eq_false]
      intro part hpart
      rw [Bool.not_eq_true]
      rw [List.any_eq_false]
      intro kw hkwm
      rw [Bool.not_eq_true]
      exact hunion part hpart kw hkwm
    · rw [if_neg hc]
  have hviol : validate_violations (pyStrip q) (upperL (pyStrip q))
      (detect_query_type (upperL (pyStrip q))) = [] := by
    unfold validate_violations
    rw [hqt, hdang]
    simp [ALLOWED_STARTS, hinto, hmulti, hsusp, huni]
  constructor
  · rw [validate_is_safe_eq q hne, hviol]
    rfl
  · rw [validate_sanitized_eq q hne, hviol]
    simp only [List.isEmpty_nil, if_true]
    rw [pyStrip_idem, pyRstripSemis_eq_drop_one _ htrail]

theorem c3_safe_select_query_witness :
    ("SELECT".data.isPrefixOf
        (detect_clean (upperL (pyStrip "SELECT INSERTED_DATE FROM T;".data))) = true) ∧
    (∀ kw ∈ DANGEROUS_KEYWORDS,
        hasWB kw.data (upperL (pyStrip "SELECT INSERTED_DATE FROM T;".data)) = false) ∧
    (hasSelectInto (upperL (pyStrip "SELECT INSERTED_DATE FROM T;".data)) = false) ∧
    (semicolon_count (pyStrip "SELECT INSERTED_DATE FROM T;".data) ≤ 1) ∧
    (trailing_semis (pyStrip "SELECT INSERTED_DATE FROM T;".data) ≤ 1) ∧
    (∀ c ∈ block_comments (pyStrip "SELECT INSERTED_DATE FROM T;".data)
        ++ line_comments (pyStrip "SELECT INSERTED_DATE FROM T;".data),
        ∀ kw ∈ DANGEROUS_KEYWORDS, containsSub kw.data (upperL c) = false) ∧
    (∀ part ∈ (split_on_sub "UNION".data
          (upperL (pyStrip "SELECT INSERTED_DATE FROM T;".data))).drop 1,
        ∀ kw ∈ DANGEROUS_KEYWORDS, hasWB kw.data part = false) ∧
    ((validate "SELECT INSERTED_DATE FROM T;".data).is_safe = true ∧
     (validate "SELECT INSERTED_DATE FROM T;".data).sanitized_query
        = some (drop_one_trailing_semi (pyStrip "SELECT INSERTED_DATE FROM T;".data))) :=
  ⟨by decide, by decide, by decide, by decide, by decide, by decide, by decide,
   c3_safe_select_query "SELECT INSERTED_DATE FROM T;".data
     (by decide) (by decide) (by decide) (by decide) (by decide) (by decide) (by decide)⟩

/-- C3 counterexample: `SELECT A /* INSERTED */ FROM T` satisfies every
hypothesis of the claim as stated (SELECT-prefixed, no deny-listed keyword as
a whole word, no SELECT...INTO, no semicolons at all), yet `validate` rejects
it: the comment check fires on the substring INSERT inside the comment. -/
theorem c3_counterexample :
    ("SELECT".data.isPrefixOf
        (detect_clean (upperL (pyStrip "SELECT A /* INSERTED */ FROM T".data))) = true) ∧
    (∀ kw ∈ DANGEROUS_KEYWORDS,
        hasWB kw.data (upperL (pyStrip "SELECT A /* INSERTED */ FROM T".data)) = false) ∧
    (hasSelectInto (upperL (pyStrip "SELECT A /* INSERTED */ FROM T".data)) = false) ∧
    (semicolon_count (pyStrip "SELECT A /* INSERTED */ FROM T".data) ≤ 1) ∧
    (trailing_semis (pyStrip "SELECT A /* INSERTED */ FROM T".data) ≤ 1) ∧
    (validate "SELECT A /* INSERTED */ FROM T".data).is_safe = false := by
  refine ⟨by decide, by decide, by decide, by decide, by decide, by decide⟩
